import Mathlib

/-!
Shallow embedding of `jrcichra/alert-deleter` (`src/main.rs`).

The program polls an Alertmanager URL for a JSON array of alerts, filters
them by a configured allow-list of alert names and the `"active"` state,
and for each matched alert dispatches an action: `delete_pod` (a Kubernetes
pod-deletion call) or `webhook` (a POST of the serialized alert), with an
acquire-then-renew leader-election protocol around the main loop.

External calls (Kubernetes delete, HTTP POST, lease acquire/renew, alert
fetch) are modelled by oracles supplying their outcomes; the observable
behaviour of the program is a trace of `Effect`s (calls made, log lines,
sleeps, process exit).
-/

/-- Command-line arguments (struct `Args` in `main.rs`). -/
structure Args where
  alertmanager_url : String
  alert_names : List String
  interval : Nat
  pod_name : String
  lease_name : String
  lease_secs : Nat
  deriving Repr, DecidableEq

/-- `struct AlertStatus { state: String }`. -/
structure AlertStatus where
  state : String
  deriving Repr, DecidableEq

/-- `struct Labels` from `main.rs`: `alertname` required, the rest optional. -/
structure Labels where
  alertname : String
  pod : Option String
  «namespace» : Option String
  action : Option String
  webhook_url : Option String
  deriving Repr, DecidableEq

/-- `struct Alert { fingerprint, status, labels }`. -/
structure Alert where
  fingerprint : String
  status : AlertStatus
  labels : Labels
  deriving Repr, DecidableEq

/-- A JSON value, as exchanged with the alert source and webhook receivers. -/
inductive Json where
  | null : Json
  | str : String → Json
  | obj : List (String × Json) → Json
  | arr : List Json → Json

/-- serde serialization of an `Option<String>` field: `None` becomes `null`. -/
def serializeOpt : Option String → Json
  | none => Json.null
  | some s => Json.str s

/-- The derived `Serialize` for `Alert`: the JSON object written by
`client.post(url).json(&alert)`. -/
def serializeAlert (a : Alert) : Json :=
  Json.obj
    [("fingerprint", Json.str a.fingerprint),
     ("status", Json.obj [("state", Json.str a.status.state)]),
     ("labels", Json.obj
       [("alertname", Json.str a.labels.alertname),
        ("pod", serializeOpt a.labels.pod),
        ("namespace", serializeOpt a.labels.«namespace»),
        ("action", serializeOpt a.labels.action),
        ("webhook_url", serializeOpt a.labels.webhook_url)])]

/-- Field lookup in a JSON object (first binding wins, as in serde maps). -/
def getField : List (String × Json) → String → Option Json
  | [], _ => none
  | (k, v) :: rest, key => if k = key then some v else getField rest key

/-- serde deserialization of a required `String` field value. -/
def asString : Json → Option String
  | Json.str s => some s
  | _ => none

/-- serde deserialization of an `Option<String>` field: absent or `null`
is `None`, a string is `Some`, anything else is a type error. -/
def asOptString (fields : List (String × Json)) (key : String) :
    Option (Option String) :=
  match getField fields key with
  | none => some none
  | some Json.null => some none
  | some (Json.str s) => some (some s)
  | some _ => none

/-- The derived `Deserialize` for `Labels`. -/
def deserializeLabels : Json → Option Labels
  | Json.obj fields => do
      let alertname ← (getField fields "alertname").bind asString
      let pod ← asOptString fields "pod"
      let ns ← asOptString fields "namespace"
      let act ← asOptString fields "action"
      let url ← asOptString fields "webhook_url"
      pure ⟨alertname, pod, ns, act, url⟩
  | _ => none

/-- The derived `Deserialize` for `AlertStatus`. -/
def deserializeStatus : Json → Option AlertStatus
  | Json.obj fields =>
      ((getField fields "state").bind asString).map AlertStatus.mk
  | _ => none

/-- The derived `Deserialize` for `Alert`: all three fields required. -/
def deserializeAlert : Json → Option Alert
  | Json.obj fields => do
      let fp ← (getField fields "fingerprint").bind asString
      let st ← (getField fields "status").bind deserializeStatus
      let lbl ← (getField fields "labels").bind deserializeLabels
      pure ⟨fp, st, lbl⟩
  | _ => none

/-- `.json::<Vec<Alert>>()`: a JSON array where every element must
deserialize into an `Alert`; any failure fails the whole batch. -/
def parseAlerts : Json → Option (List Alert)
  | Json.arr items => items.mapM deserializeAlert
  | _ => none

/-- One observable step of the program: an external call made, a log line
emitted, a sleep, or process termination. -/
inductive Effect where
  | deletePodCall : String → String → Effect
  | webhookPost : String → Json → Effect
  | logInfo : String → Effect
  | logWarn : String → Effect
  | logError : String → Effect
  | sleepSecs : Nat → Effect
  | exitProcess : Nat → Effect

/-- Outcomes of the external calls the dispatcher makes. `deletePodResult`
is the result of the Kubernetes pod delete; `webhookSendResult` is the
result of `reqwest`'s `send()`: `ok code` means an HTTP response with that
status code was received (any status, including 5xx), `error` means the
send itself failed at the transport level. -/
structure Env where
  deletePodResult : String → String → Except String Unit
  webhookSendResult : String → Except String Nat

/-- `async fn delete_pod`: issues the delete call; on success logs at info
level, on failure propagates the error (via `?`) to the caller. Returns
the effects performed and the propagated error, if any. -/
def delete_pod (env : Env) (pod ns : String) : List Effect × Option String :=
  match env.deletePodResult pod ns with
  | Except.ok _ =>
      ([Effect.deletePodCall pod ns,
        Effect.logInfo ("Deleted pod " ++ pod ++ " in namespace " ++ ns)], none)
  | Except.error e => ([Effect.deletePodCall pod ns], some e)

/-- `alert.labels.action.as_deref().unwrap_or("delete_pod")`. -/
def resolvedAction (a : Alert) : String :=
  a.labels.action.getD "delete_pod"

/-- The per-alert dispatch block of `main` (the `match action` statement):
routes the alert to the pod-deletion or webhook executor, logging errors
for missing labels and a warning for an unknown action. -/
def dispatchAlert (env : Env) (alert : Alert) : List Effect :=
  let act := resolvedAction alert
  if act = "delete_pod" then
    match alert.labels.pod, alert.labels.«namespace» with
    | some pod, some ns =>
        match delete_pod env pod ns with
        | (es, none) => es
        | (es, some e) => es ++ [Effect.logError ("Failed to delete pod: " ++ e)]
    | _, _ =>
        [Effect.logError ("Alert " ++ alert.fingerprint ++
          " is missing pod or namespace")]
  else if act = "webhook" then
    match alert.labels.webhook_url with
    | some url =>
        match env.webhookSendResult url with
        | Except.ok _ =>
            [Effect.webhookPost url (serializeAlert alert),
             Effect.logInfo ("Sent webhook for alert " ++ alert.fingerprint)]
        | Except.error err =>
            [Effect.webhookPost url (serializeAlert alert),
             Effect.logError ("Failed to send webhook: " ++ err)]
    | none =>
        [Effect.logError ("No webhook URL specified in alert " ++
          alert.fingerprint)]
  else
    [Effect.logWarn ("Unknown action " ++ "'" ++ act ++ "'" ++ " in alert " ++
      alert.fingerprint)]

/-- The matcher condition of `main`:
`args.alert_names.contains(&alert.labels.alertname) && alert.status.state == "active"`. -/
def alertMatches (args : Args) (alert : Alert) : Bool :=
  args.alert_names.contains alert.labels.alertname &&
    alert.status.state == "active"

/-- The matcher as a filter over the fetched batch. -/
def matchedAlerts (args : Args) (alerts : List Alert) : List Alert :=
  alerts.filter (alertMatches args)

/-- The `for alert in alerts` loop body of `main`: each alert is checked
against the matcher and, if it matches, dispatched; alerts are processed
sequentially in batch order. -/
def processAlerts (env : Env) (args : Args) : List Alert → List Effect
  | [] => []
  | alert :: rest =>
      (if alertMatches args alert then dispatchAlert env alert else []) ++
        processAlerts env args rest

/-- `async fn get_alerts`, given the outcome of the HTTP GET: a transport
or HTTP error propagates via `?`; on a body, `.json::<Vec<Alert>>()` must
parse every element or the whole call errors (serde message abstracted as
a fixed string). -/
def get_alerts (httpResult : Except String Json) : Except String (List Alert) :=
  match httpResult with
  | Except.error e => Except.error e
  | Except.ok body =>
      match parseAlerts body with
      | some alerts => Except.ok alerts
      | none => Except.error "error decoding response body"

/-- One iteration of the main loop after the interval tick, given the
result of `get_alerts`: on success each alert is matched and dispatched,
on failure the error is logged and the cycle does nothing else. -/
def pollCycle (env : Env) (args : Args)
    (fetched : Except String (List Alert)) : List Effect :=
  Effect.logInfo "Checking for alerts..." ::
    match fetched with
    | Except.ok alerts => processAlerts env args alerts
    | Except.error err => [Effect.logError ("Failed to get alerts: " ++ err)]

/-- The infinite main loop, run over a finite prefix of fetch outcomes:
every cycle runs regardless of earlier cycles' outcomes. -/
def mainLoopRun (env : Env) (args : Args) :
    List (Except String (List Alert)) → List Effect
  | [] => []
  | f :: rest => pollCycle env args f ++ mainLoopRun env args rest

/-- Outcome of the initial acquisition loop on a finite prefix of lease
responses. -/
inductive AcquireOutcome where
  | entered : AcquireOutcome
  | startupError : String → AcquireOutcome
  | waiting : AcquireOutcome
  deriving Repr, DecidableEq

/-- The `waiting for lock...` loop of `main`, over the sequence of
`try_acquire_or_renew` outcomes: `Ok` with `acquired_lease = true` breaks
out into the main loop; `Ok` with `false` sleeps 1 second and retries;
`Err` propagates via `?`, terminating the process with a startup error.
`waiting` means the finite response prefix was exhausted still retrying. -/
def acquireLoop : List (Except String Bool) → List Effect × AcquireOutcome
  | [] => ([], AcquireOutcome.waiting)
  | Except.error e :: _ => ([], AcquireOutcome.startupError e)
  | Except.ok true :: _ => ([], AcquireOutcome.entered)
  | Except.ok false :: rest =>
      let (es, o) := acquireLoop rest
      (Effect.sleepSecs 1 :: es, o)

/-- The spawned renewal watchdog, over the sequence of
`try_acquire_or_renew` outcomes: sleeps 5 seconds, then on `Err` logs a
warning and continues, on `Ok true` continues, and on `Ok false` logs and
calls `process::exit(1)`, ending the task. -/
def watchdogRun : List (Except String Bool) → List Effect
  | [] => []
  | Except.error e :: rest =>
      Effect.sleepSecs 5 ::
        Effect.logWarn ("background lease error: " ++ e) :: watchdogRun rest
  | Except.ok true :: rest => Effect.sleepSecs 5 :: watchdogRun rest
  | Except.ok false :: _ =>
      [Effect.sleepSecs 5, Effect.logInfo "lost lease, exiting...",
       Effect.exitProcess 1]

/-- A lease response that reports `acquired_lease = false`. -/
def isAcqFalse : Except String Bool → Bool
  | Except.ok false => true
  | _ => false

/-- Recognizer for pod-deletion calls in a trace. -/
def isDeleteCall : Effect → Bool
  | Effect.deletePodCall _ _ => true
  | _ => false

/-- Recognizer for webhook POSTs in a trace. -/
def isPost : Effect → Bool
  | Effect.webhookPost _ _ => true
  | _ => false

/-- Recognizer for process exits in a trace. -/
def isExit : Effect → Bool
  | Effect.exitProcess _ => true
  | _ => false

/-- Recognizer for error-level log lines in a trace. -/
def isErrorLog : Effect → Bool
  | Effect.logError _ => true
  | _ => false

/-- Number of process exits in a trace. -/
def countExits (es : List Effect) : Nat := (es.filter isExit).length

/-- An environment where every external call succeeds (HTTP 200). -/
def envOk : Env := ⟨fun _ _ => Except.ok (), fun _ => Except.ok 200⟩

/-- An environment where the pod delete fails and the webhook send fails
at the transport level. -/
def envFail : Env :=
  ⟨fun _ _ => Except.error "ApiError", fun _ => Except.error "connect error"⟩

/-- An environment where the webhook receiver answers every POST with an
HTTP 500 response (the send itself succeeds). -/
def env500 : Env := ⟨fun _ _ => Except.ok (), fun _ => Except.ok 500⟩

/-- A firing alert targeting pod `api-0` in namespace `prod`, no explicit
action label. -/
def alertPod : Alert :=
  ⟨"f1", ⟨"active"⟩, ⟨"HighMemory", some "api-0", some "prod", none, none⟩⟩

/-- A firing alert with action `delete_pod` but no namespace label. -/
def alertNoNs : Alert :=
  ⟨"f2", ⟨"active"⟩, ⟨"HighMemory", some "api-0", none, some "delete_pod", none⟩⟩

/-- A firing alert with action `webhook` and a webhook URL. -/
def alertHook : Alert :=
  ⟨"f3", ⟨"active"⟩,
   ⟨"HighMemory", none, none, some "webhook", some "http://x/y"⟩⟩

/-- A firing alert with the unrecognized action `restart`. -/
def alertRestart : Alert :=
  ⟨"f4", ⟨"active"⟩, ⟨"HighMemory", none, none, some "restart", none⟩⟩

/-- A JSON record that does not deserialize into an `Alert` (it lacks
every required field). -/
def jsonBad : Json := Json.obj []

/-- The allow-list configuration used by concrete scenarios:
`--alert-names HighMemory` with default interval and lease settings. -/
def argsHM : Args :=
  ⟨"http://alertmanager:9093/api/v2/alerts", ["HighMemory"], 60,
   "alert-deleter-0", "alert-deleter", 10⟩

theorem processAlerts_eq_flatten (env : Env) (args : Args)
    (alerts : List Alert) :
    processAlerts env args alerts =
      ((matchedAlerts args alerts).map (dispatchAlert env)).flatten := by
  induction alerts with
  | nil => simp [processAlerts, matchedAlerts]
  | cons a rest ih =>
      by_cases h : alertMatches args a
      · simp [processAlerts, matchedAlerts, List.filter_cons, h] at ih ⊢
        exact ih
      · simp [processAlerts, matchedAlerts, List.filter_cons, h] at ih ⊢
        exact ih

/-- C1: an alert in a fetched batch is kept by the matcher (and dispatched)
iff its `alertname` label is in the allow-list and its state is `"active"`;
the whole cycle's dispatch trace is exactly the concatenation of the
dispatches of the matched alerts, so no executor runs for excluded alerts. -/
theorem matcher_keeps_iff (env : Env) (args : Args) (alerts : List Alert) :
    processAlerts env args alerts =
      ((matchedAlerts args alerts).map (dispatchAlert env)).flatten ∧
    ∀ a : Alert, a ∈ matchedAlerts args alerts ↔
      (a ∈ alerts ∧ a.labels.alertname ∈ args.alert_names ∧
        a.status.state = "active") := by
  constructor
  · exact processAlerts_eq_flatten env args alerts
  · intro a
    simp [matchedAlerts, List.mem_filter, alertMatches, Bool.and_eq_true,
      beq_iff_eq, List.contains, List.elem_iff, and_assoc]

theorem countExits_append (xs ys : List Effect) :
    countExits (xs ++ ys) = countExits xs + countExits ys := by
  simp [countExits, List.filter_append]

theorem watchdogRun_no_loss : ∀ rs : List (Except String Bool),
    (∀ r ∈ rs, isAcqFalse r = false) → countExits (watchdogRun rs) = 0
  | [], _ => rfl
  | Except.error e :: rest, h => by
      have ih := watchdogRun_no_loss rest
        (fun x hx => h x (List.mem_cons_of_mem _ hx))
      simp [watchdogRun, countExits, isExit] at ih ⊢
      exact ih
  | Except.ok true :: rest, h => by
      have ih := watchdogRun_no_loss rest
        (fun x hx => h x (List.mem_cons_of_mem _ hx))
      simp [watchdogRun, countExits, isExit] at ih ⊢
      exact ih
  | Except.ok false :: rest, h => by
      have := h _ (List.mem_cons_self _ _)
      simp [isAcqFalse] at this

theorem watchdogRun_loss_append :
    ∀ pre post : List (Except String Bool),
    (∀ r ∈ pre, isAcqFalse r = false) →
    watchdogRun (pre ++ Except.ok false :: post) =
      watchdogRun pre ++
        [Effect.sleepSecs 5, Effect.logInfo "lost lease, exiting...",
         Effect.exitProcess 1]
  | [], _, _ => rfl
  | Except.error e :: rest, post, h => by
      have ih := watchdogRun_loss_append rest post
        (fun x hx => h x (List.mem_cons_of_mem _ hx))
      simp [watchdogRun, ih]
  | Except.ok true :: rest, post, h => by
      have ih := watchdogRun_loss_append rest post
        (fun x hx => h x (List.mem_cons_of_mem _ hx))
      simp [watchdogRun, ih]
  | Except.ok false :: rest, post, h => by
      have := h _ (List.mem_cons_self _ _)
      simp [isAcqFalse] at this

/-- C2: the renewal watchdog never exits the process on a transport/API
error (it logs a warning and continues), and on the first response with
`acquired_lease = false` it exits exactly once with non-zero status 1,
regardless of how many transient errors preceded it. -/
theorem watchdog_exits_once_on_loss (pre post : List (Except String Bool))
    (e : String) (h : ∀ r ∈ pre, isAcqFalse r = false) :
    countExits (watchdogRun pre) = 0 ∧
    watchdogRun (Except.error e :: pre) =
      Effect.sleepSecs 5 ::
        Effect.logWarn ("background lease error: " ++ e) :: watchdogRun pre ∧
    watchdogRun (pre ++ Except.ok false :: post) =
      watchdogRun pre ++
        [Effect.sleepSecs 5, Effect.logInfo "lost lease, exiting...",
         Effect.exitProcess 1] ∧
    countExits (watchdogRun (pre ++ Except.ok false :: post)) = 1 := by
  refine ⟨watchdogRun_no_loss pre h, rfl, watchdogRun_loss_append pre post h, ?_⟩
  rw [watchdogRun_loss_append pre post h, countExits_append,
    watchdogRun_no_loss pre h]
  rfl

/-- Witness for C2: two transient errors and a successful renewal precede
the confirmed loss; the watchdog exits exactly once. -/
theorem watchdog_exits_once_on_loss_witness :
    countExits (watchdogRun [Except.error "e1", Except.ok true,
      Except.error "e2"]) = 0 ∧
    watchdogRun (Except.error "e0" :: [Except.error "e1", Except.ok true,
      Except.error "e2"]) =
      Effect.sleepSecs 5 ::
        Effect.logWarn ("background lease error: " ++ "e0") ::
          watchdogRun [Except.error "e1", Except.ok true, Except.error "e2"] ∧
    watchdogRun ([Except.error "e1", Except.ok true, Except.error "e2"] ++
        Except.ok false :: [Except.ok true]) =
      watchdogRun [Except.error "e1", Except.ok true, Except.error "e2"] ++
        [Effect.sleepSecs 5, Effect.logInfo "lost lease, exiting...",
         Effect.exitProcess 1] ∧
    countExits (watchdogRun ([Except.error "e1", Except.ok true,
      Except.error "e2"] ++ Except.ok false :: [Except.ok true])) = 1 :=
  watchdog_exits_once_on_loss
    [Except.error "e1", Except.ok true, Except.error "e2"]
    [Except.ok true] "e0" (by simp [isAcqFalse])

/-- C3: for a matched alert the dispatched action is `labels.action` when
present and `"delete_pod"` otherwise; under action `"delete_pod"`, with
both `pod` and `namespace` labels present exactly one termination call is
made with exactly those values, and with either missing no termination
call is made and one error naming the fingerprint is logged. -/
theorem delete_pod_dispatch (env : Env) (a : Alert) (p n s : String)
    (hact : resolvedAction a = "delete_pod") :
    (a.labels.pod = some p → a.labels.«namespace» = some n →
       (dispatchAlert env a).filter isDeleteCall = [Effect.deletePodCall p n]) ∧
    ((a.labels.pod = none ∨ a.labels.«namespace» = none) →
       (dispatchAlert env a).filter isDeleteCall = [] ∧
       dispatchAlert env a =
         [Effect.logError ("Alert " ++ a.fingerprint ++
           " is missing pod or namespace")]) ∧
    (a.labels.action = some s → resolvedAction a = s) ∧
    (a.labels.action = none → resolvedAction a = "delete_pod") := by
  refine ⟨?_, ?_, ?_, ?_⟩
  · intro hp hn
    cases h : env.deletePodResult p n <;>
      simp [dispatchAlert, hact, hp, hn, delete_pod, h, isDeleteCall]
  · intro hmiss
    cases hp : a.labels.pod <;> cases hn : a.labels.«namespace» <;>
      simp [hp, hn] at hmiss ⊢ <;>
      simp [dispatchAlert, hact, hp, hn, isDeleteCall]
  · intro hs
    simp [resolvedAction, hs]
  · intro hnone
    simp [resolvedAction, hnone]

/-- Witness for C3: the `delete_pod` alert with pod `api-0` and namespace
`prod` dispatched under the all-success environment. -/
theorem delete_pod_dispatch_witness :
    (alertPod.labels.pod = some "api-0" →
       alertPod.labels.«namespace» = some "prod" →
       (dispatchAlert envOk alertPod).filter isDeleteCall =
         [Effect.deletePodCall "api-0" "prod"]) ∧
    ((alertPod.labels.pod = none ∨ alertPod.labels.«namespace» = none) →
       (dispatchAlert envOk alertPod).filter isDeleteCall = [] ∧
       dispatchAlert envOk alertPod =
         [Effect.logError ("Alert " ++ alertPod.fingerprint ++
           " is missing pod or namespace")]) ∧
    (alertPod.labels.action = some "delete_pod" →
       resolvedAction alertPod = "delete_pod") ∧
    (alertPod.labels.action = none → resolvedAction alertPod = "delete_pod") :=
  delete_pod_dispatch envOk alertPod "api-0" "prod" "delete_pod" (by rfl)

theorem serialize_roundtrip (a : Alert) :
    deserializeAlert (serializeAlert a) = some a := by
  obtain ⟨fp, ⟨st⟩, ⟨an, pod, ns, act, url⟩⟩ := a
  cases pod <;> cases ns <;> cases act <;> cases url <;>
    simp [serializeAlert, deserializeAlert, deserializeLabels,
      deserializeStatus, getField, asString, asOptString, serializeOpt]

/-- C4: for a matched alert with action `"webhook"` and a `webhook_url`
label, exactly one POST is made to exactly that URL, and its JSON body
deserializes back into the original alert (round-trip recovers
fingerprint, status and labels); with `webhook_url` missing, no POST is
made and one error naming the fingerprint is logged. -/
theorem webhook_dispatch (env : Env) (a : Alert) (u : String)
    (hact : resolvedAction a = "webhook") :
    (a.labels.webhook_url = some u →
       (dispatchAlert env a).filter isPost =
         [Effect.webhookPost u (serializeAlert a)] ∧
       deserializeAlert (serializeAlert a) = some a) ∧
    (a.labels.webhook_url = none →
       (dispatchAlert env a).filter isPost = [] ∧
       dispatchAlert env a =
         [Effect.logError ("No webhook URL specified in alert " ++
           a.fingerprint)]) := by
  refine ⟨fun hu => ⟨?_, serialize_roundtrip a⟩, fun hn => ?_⟩
  · cases h : env.webhookSendResult u <;>
      simp [dispatchAlert, hact, hu, h, isPost]
  · simp [dispatchAlert, hact, hn, isPost]

/-- Witness for C4: the webhook alert with URL `http://x/y` dispatched
under the all-success environment. -/
theorem webhook_dispatch_witness :
    (alertHook.labels.webhook_url = some "http://x/y" →
       (dispatchAlert envOk alertHook).filter isPost =
         [Effect.webhookPost "http://x/y" (serializeAlert alertHook)] ∧
       deserializeAlert (serializeAlert alertHook) = some alertHook) ∧
    (alertHook.labels.webhook_url = none →
       (dispatchAlert envOk alertHook).filter isPost = [] ∧
       dispatchAlert envOk alertHook =
         [Effect.logError ("No webhook URL specified in alert " ++
           alertHook.fingerprint)]) :=
  webhook_dispatch envOk alertHook "http://x/y" (by rfl)

/-- C5: dispatch within one cycle is independent and ordered; for any
pattern of executor outcomes, an alert matched by the matcher is always
dispatched, with the traces of the alerts before and after it unchanged
around it, and the whole cycle is the concatenation of per-alert
dispatches in the matcher's output order. -/
theorem dispatch_isolated (env : Env) (args : Args) (pre post : List Alert)
    (a : Alert) (h : alertMatches args a = true) :
    processAlerts env args (pre ++ a :: post) =
      processAlerts env args pre ++ dispatchAlert env a ++
        processAlerts env args post ∧
    processAlerts env args (pre ++ a :: post) =
      ((matchedAlerts args (pre ++ a :: post)).map
        (dispatchAlert env)).flatten := by
  refine ⟨?_, processAlerts_eq_flatten env args _⟩
  induction pre with
  | nil => simp [processAlerts, h]
  | cons b rest ih =>
      simp only [List.cons_append, processAlerts, List.append_eq, ih,
        List.append_assoc]

/-- Witness for C5: under the all-failure environment the first matched
alert's pod deletion fails, yet the following webhook alert and the
malformed `delete_pod` alert are still dispatched, in order. -/
theorem dispatch_isolated_witness :
    processAlerts envFail argsHM ([alertPod] ++ alertHook :: [alertNoNs]) =
      processAlerts envFail argsHM [alertPod] ++ dispatchAlert envFail alertHook ++
        processAlerts envFail argsHM [alertNoNs] ∧
    processAlerts envFail argsHM ([alertPod] ++ alertHook :: [alertNoNs]) =
      ((matchedAlerts argsHM ([alertPod] ++ alertHook :: [alertNoNs])).map
        (dispatchAlert envFail)).flatten :=
  dispatch_isolated envFail argsHM [alertPod] [alertNoNs] alertHook (by decide)

/-- C6: a matched alert whose resolved action is neither `"delete_pod"`
nor `"webhook"` produces exactly one warning log naming the action value
and the fingerprint, and no termination call or webhook POST. -/
theorem unknown_action_dispatch (env : Env) (a : Alert) (s : String)
    (hres : resolvedAction a = s) (h1 : s ≠ "delete_pod")
    (h2 : s ≠ "webhook") :
    dispatchAlert env a =
      [Effect.logWarn ("Unknown action " ++ "'" ++ s ++ "'" ++ " in alert " ++
        a.fingerprint)] ∧
    (dispatchAlert env a).filter isDeleteCall = [] ∧
    (dispatchAlert env a).filter isPost = [] := by
  simp [dispatchAlert, hres, h1, h2, isDeleteCall, isPost]

/-- Witness for C6: the alert carrying `action = "restart"` yields one
warning and no executor calls. -/
theorem unknown_action_dispatch_witness :
    dispatchAlert envOk alertRestart =
      [Effect.logWarn ("Unknown action " ++ "'" ++ "restart" ++ "'" ++
        " in alert " ++ alertRestart.fingerprint)] ∧
    (dispatchAlert envOk alertRestart).filter isDeleteCall = [] ∧
    (dispatchAlert envOk alertRestart).filter isPost = [] :=
  unknown_action_dispatch envOk alertRestart "restart" (by rfl)
    (by decide) (by decide)

theorem acquireLoop_cons_false (l : List (Except String Bool)) :
    acquireLoop (Except.ok false :: l) =
      (Effect.sleepSecs 1 :: (acquireLoop l).1, (acquireLoop l).2) := rfl

theorem acquireLoop_all_false : ∀ rs : List (Except String Bool),
    (∀ r ∈ rs, r = Except.ok false) →
    acquireLoop rs =
      (List.replicate rs.length (Effect.sleepSecs 1), AcquireOutcome.waiting)
  | [], _ => rfl
  | r :: rest, h => by
      have hr := h r (List.mem_cons_self _ _)
      have ih := acquireLoop_all_false rest
        (fun x hx => h x (List.mem_cons_of_mem _ hx))
      subst hr
      simp [acquireLoop_cons_false, ih, List.replicate_succ]

theorem acquireLoop_skip_false : ∀ (pre : List (Except String Bool))
    (x : Except String Bool) (post : List (Except String Bool)),
    (∀ r ∈ pre, r = Except.ok false) →
    (acquireLoop (pre ++ x :: post)).2 = (acquireLoop (x :: post)).2
  | [], _, _, _ => rfl
  | r :: rest, x, post, h => by
      have hr := h r (List.mem_cons_self _ _)
      have ih := acquireLoop_skip_false rest x post
        (fun y hy => h y (List.mem_cons_of_mem _ hy))
      subst hr
      simp [acquireLoop_cons_false, ih]

theorem acquireLoop_entered_mem : ∀ qs : List (Except String Bool),
    (acquireLoop qs).2 = AcquireOutcome.entered → Except.ok true ∈ qs
  | [], h => by simp [acquireLoop] at h
  | Except.error e :: rest, h => by simp [acquireLoop] at h
  | Except.ok true :: _, _ => List.mem_cons_self _ _
  | Except.ok false :: rest, h => by
      have := acquireLoop_entered_mem rest
        (by simpa [acquireLoop_cons_false] using h)
      exact List.mem_cons_of_mem _ this

/-- Counterexample for C7: a single lease-client error during the initial
acquisition loop is propagated by `?` and terminates the process as a
startup error — the loop does not retry it, so the acquisition does give
up when an attempt fails with a transport/API error. -/
theorem acquire_error_gives_up :
    (acquireLoop [Except.error "connection refused"]).2 =
      AcquireOutcome.startupError "connection refused" ∧
    (acquireLoop [Except.error "connection refused"]).2 ≠
      AcquireOutcome.waiting := by
  refine ⟨rfl, ?_⟩
  decide

/-- C7 (amended): the initial acquisition loop retries with a fixed
1-second sleep after every `acquired = false` response and never gives up
on such responses; the main loop is entered exactly when a response with
`acquired = true` arrives, never before one; but a transport/API error
during acquisition propagates and terminates the process with a startup
error. -/
theorem acquire_loop_behavior (rs pre post qs : List (Except String Bool))
    (e : String)
    (hrs : ∀ r ∈ rs, r = Except.ok false)
    (hpre : ∀ r ∈ pre, r = Except.ok false)
    (hq : (acquireLoop qs).2 = AcquireOutcome.entered) :
    (acquireLoop rs).2 = AcquireOutcome.waiting ∧
    (acquireLoop rs).1 = List.replicate rs.length (Effect.sleepSecs 1) ∧
    (acquireLoop (pre ++ Except.ok true :: post)).2 =
      AcquireOutcome.entered ∧
    (acquireLoop (pre ++ Except.error e :: post)).2 =
      AcquireOutcome.startupError e ∧
    Except.ok true ∈ qs := by
  refine ⟨?_, ?_, ?_, ?_, acquireLoop_entered_mem qs hq⟩
  · rw [acquireLoop_all_false rs hrs]
  · rw [acquireLoop_all_false rs hrs]
  · rw [acquireLoop_skip_false pre _ post hpre]
    rfl
  · rw [acquireLoop_skip_false pre _ post hpre]
    rfl

/-- Witness for C7's amended statement: two unsuccessful attempts keep
waiting with 1-second sleeps; an `acquired = true` after one unsuccessful
attempt enters the main loop; an error after one unsuccessful attempt is
a startup error. -/
theorem acquire_loop_behavior_witness :
    (acquireLoop ([Except.ok false, Except.ok false] :
        List (Except String Bool))).2 = AcquireOutcome.waiting ∧
    (acquireLoop ([Except.ok false, Except.ok false] :
        List (Except String Bool))).1 =
      List.replicate (List.length ([Except.ok false, Except.ok false] :
        List (Except String Bool))) (Effect.sleepSecs 1) ∧
    (acquireLoop (([Except.ok false] : List (Except String Bool)) ++
        Except.ok true :: [])).2 = AcquireOutcome.entered ∧
    (acquireLoop (([Except.ok false] : List (Except String Bool)) ++
        Except.error "econn" :: [])).2 =
      AcquireOutcome.startupError "econn" ∧
    Except.ok true ∈ ([Except.ok false, Except.ok true] :
        List (Except String Bool)) :=
  acquire_loop_behavior [Except.ok false, Except.ok false] [Except.ok false]
    [] [Except.ok false, Except.ok true] "econn"
    (by simp) (by simp) (by rfl)

theorem countExits_dispatchAlert (env : Env) (a : Alert) :
    countExits (dispatchAlert env a) = 0 := by
  by_cases hd : resolvedAction a = "delete_pod"
  · rcases hp : a.labels.pod with _ | p <;>
      rcases hn : a.labels.«namespace» with _ | n
    · simp [dispatchAlert, hd, hp, hn, countExits, isExit]
    · simp [dispatchAlert, hd, hp, hn, countExits, isExit]
    · simp [dispatchAlert, hd, hp, hn, countExits, isExit]
    · cases hres : env.deletePodResult p n <;>
        simp [dispatchAlert, hd, hp, hn, delete_pod, hres, countExits, isExit]
  · by_cases hw : resolvedAction a = "webhook"
    · rcases hu : a.labels.webhook_url with _ | u
      · simp [dispatchAlert, hd, hw, hu, countExits, isExit]
      · cases hres : env.webhookSendResult u <;>
          simp [dispatchAlert, hd, hw, hu, hres, countExits, isExit]
    · simp [dispatchAlert, hd, hw, countExits, isExit]

theorem countExits_processAlerts (env : Env) (args : Args) :
    ∀ alerts : List Alert, countExits (processAlerts env args alerts) = 0
  | [] => rfl
  | a :: rest => by
      have ih := countExits_processAlerts env args rest
      by_cases h : alertMatches args a
      · have heq : processAlerts env args (a :: rest) =
            dispatchAlert env a ++ processAlerts env args rest := by
          simp [processAlerts, h]
        rw [heq, countExits_append, ih, countExits_dispatchAlert]
      · have heq : processAlerts env args (a :: rest) =
            processAlerts env args rest := by
          simp [processAlerts, h]
        rw [heq, ih]

theorem countExits_pollCycle (env : Env) (args : Args)
    (f : Except String (List Alert)) :
    countExits (pollCycle env args f) = 0 := by
  cases f with
  | ok alerts =>
      have heq : pollCycle env args (Except.ok alerts) =
          [Effect.logInfo "Checking for alerts..."] ++
            processAlerts env args alerts := rfl
      rw [heq, countExits_append, countExits_processAlerts env args alerts]
      rfl
  | error e => rfl

theorem countExits_mainLoopRun (env : Env) (args : Args) :
    ∀ fs : List (Except String (List Alert)),
    countExits (mainLoopRun env args fs) = 0
  | [] => rfl
  | f :: rest => by
      have heq : mainLoopRun env args (f :: rest) =
          pollCycle env args f ++ mainLoopRun env args rest := rfl
      rw [heq, countExits_append, countExits_pollCycle,
        countExits_mainLoopRun env args rest]

/-- C8: when the alert fetch fails, that cycle dispatches nothing (no
delete calls, no POSTs), logs the failure, and the loop proceeds to the
next cycle unchanged; no fetch outcome whatsoever makes the main loop
terminate the process. -/
theorem fetch_failure_isolated (env : Env) (args : Args) (e : String)
    (rest fs : List (Except String (List Alert))) :
    pollCycle env args (Except.error e) =
      [Effect.logInfo "Checking for alerts...",
       Effect.logError ("Failed to get alerts: " ++ e)] ∧
    (pollCycle env args (Except.error e)).filter isDeleteCall = [] ∧
    (pollCycle env args (Except.error e)).filter isPost = [] ∧
    mainLoopRun env args (Except.error e :: rest) =
      pollCycle env args (Except.error e) ++ mainLoopRun env args rest ∧
    countExits (mainLoopRun env args fs) = 0 := by
  refine ⟨rfl, ?_, ?_, rfl, countExits_mainLoopRun env args fs⟩ <;>
    simp [pollCycle, isDeleteCall, isPost]

theorem mapM_deserialize_none : ∀ (items : List Json) (j : Json),
    j ∈ items → deserializeAlert j = none →
    items.mapM deserializeAlert = none
  | [], j, hj, _ => absurd hj (List.not_mem_nil _)
  | x :: rest, j, hj, hbad => by
      rcases List.mem_cons.mp hj with h | h
      · subst h
        rw [List.mapM_cons, hbad]
        rfl
      · rw [List.mapM_cons, mapM_deserialize_none rest j h hbad]
        cases hx : deserializeAlert x <;> rfl

/-- C9: alert-batch parsing is all-or-nothing; if any record of the JSON
array fails to deserialize into an `Alert`, the whole fetch errors and
the cycle dispatches nothing — the well-formed records included. -/
theorem parse_batch_all_or_nothing (items : List Json) (j : Json)
    (env : Env) (args : Args)
    (hj : j ∈ items) (hbad : deserializeAlert j = none) :
    parseAlerts (Json.arr items) = none ∧
    get_alerts (Except.ok (Json.arr items)) =
      Except.error "error decoding response body" ∧
    (pollCycle env args (get_alerts (Except.ok (Json.arr items)))).filter
      isDeleteCall = [] ∧
    (pollCycle env args (get_alerts (Except.ok (Json.arr items)))).filter
      isPost = [] := by
  have hparse : parseAlerts (Json.arr items) = none :=
    mapM_deserialize_none items j hj hbad
  have hget : get_alerts (Except.ok (Json.arr items)) =
      Except.error "error decoding response body" := by
    simp [get_alerts, hparse]
  refine ⟨hparse, hget, ?_, ?_⟩ <;>
    simp [hget, pollCycle, isDeleteCall, isPost]

/-- Witness for C9: a batch holding one fully well-formed alert record and
one record with no fields fails as a whole and dispatches nothing. -/
theorem parse_batch_all_or_nothing_witness :
    parseAlerts (Json.arr [serializeAlert alertPod, jsonBad]) = none ∧
    get_alerts (Except.ok (Json.arr [serializeAlert alertPod, jsonBad])) =
      Except.error "error decoding response body" ∧
    (pollCycle envOk argsHM (get_alerts (Except.ok
      (Json.arr [serializeAlert alertPod, jsonBad])))).filter
      isDeleteCall = [] ∧
    (pollCycle envOk argsHM (get_alerts (Except.ok
      (Json.arr [serializeAlert alertPod, jsonBad])))).filter
      isPost = [] :=
  parse_batch_all_or_nothing [serializeAlert alertPod, jsonBad] jsonBad
    envOk argsHM (List.mem_cons_of_mem _ (List.mem_cons_self _ _)) rfl

/-- C10: the webhook executor treats any received HTTP response as
success: whenever `send()` yields a response — whatever its status code,
500 included — an info line naming the fingerprint is logged; an error is
logged exactly when the send fails at the transport level. -/
theorem webhook_success_on_any_response (env : Env) (a : Alert)
    (u : String) (code : Nat) (err : String)
    (hact : resolvedAction a = "webhook")
    (hurl : a.labels.webhook_url = some u) :
    (env.webhookSendResult u = Except.ok code →
       dispatchAlert env a =
         [Effect.webhookPost u (serializeAlert a),
          Effect.logInfo ("Sent webhook for alert " ++ a.fingerprint)]) ∧
    (env.webhookSendResult u = Except.error err →
       dispatchAlert env a =
         [Effect.webhookPost u (serializeAlert a),
          Effect.logError ("Failed to send webhook: " ++ err)]) := by
  constructor <;> intro h <;> simp [dispatchAlert, hact, hurl, h]

/-- Witness for C10: the webhook receiver answers HTTP 500, and the
dispatcher still logs the success info line for the fingerprint. -/
theorem webhook_success_on_any_response_witness :
    (env500.webhookSendResult "http://x/y" = Except.ok 500 →
       dispatchAlert env500 alertHook =
         [Effect.webhookPost "http://x/y" (serializeAlert alertHook),
          Effect.logInfo ("Sent webhook for alert " ++
            alertHook.fingerprint)]) ∧
    (env500.webhookSendResult "http://x/y" = Except.error "connect error" →
       dispatchAlert env500 alertHook =
         [Effect.webhookPost "http://x/y" (serializeAlert alertHook),
          Effect.logError ("Failed to send webhook: " ++ "connect error")]) :=
  webhook_success_on_any_response env500 alertHook "http://x/y" 500
    "connect error" (by rfl) (by rfl)
